import Mathlib

/-!
Verification of the apollo-engine-js core against its specification.

The development shallowly embeds the two core components:

* the proxy-router middleware (`src/middleware.ts`): the per-request decision
  made by the micro/express/connect/koa middleware factories, the endpoint
  matcher, the trailing-separator stripping, and the outcome of the forwarded
  exchange (`proxyRequest` and the koa proxy callback);
* the process supervisor (`src/launcher.ts`, plus the legacy `Engine` class):
  side-channel address discovery, exit classification and respawn, the startup
  timeout, and the precise-configuration structural check.

JavaScript strings are modelled as Lean `String`s; the handful of string
operations the source uses (`startsWith`-style prefix tests, `slice`,
`charAt`, `includes`) are defined below on `String.data` so that they both
run (`decide`/`rfl` on concrete inputs) and admit list-level reasoning.
Asynchronous callbacks are embedded as pure functions from their inputs
(accumulated bytes, exit code/signal, transport result) to an explicit
outcome value describing exactly what the handler does.
-/

namespace ApolloEngine

/-! ## String helpers (JS string operations used by the source) -/

/-- JS `s.slice(n)` / the tail of a string from index `n`. -/
def strDrop (s : String) (n : Nat) : String := String.mk (s.data.drop n)

/-- JS `s.slice(0, n)`. -/
def strTake (s : String) (n : Nat) : String := String.mk (s.data.take n)

/-- JS `s.startsWith(p)` (also the anchored-literal part of a `^p...` regex). -/
def strStartsWith (s p : String) : Bool := p.data.isPrefixOf s.data

/-- JS `s.length`. -/
def strLen (s : String) : Nat := s.data.length

/-- JS `s.charAt(i)`: the one-character string at index `i`, or `""` when out
of range. -/
def strCharAt (s : String) (i : Nat) : String := String.mk ((s.data.drop i).take 1)

/-- JS `s.includes(c)` for a single character `c`. -/
def strContainsChar (s : String) (c : Char) : Bool := s.data.contains c

/-! ## Middleware (`src/middleware.ts`) -/

/-- Structure `MiddlewareParams` from `src/middleware.ts`: the endpoint set, the shared
mutable companion-uri cell (`""` = empty cell, matching the JS falsiness test
`!params.uri`), the per-instance shared secret, and the traffic-dump flag. -/
structure MiddlewareParams where
  endpoints : List String
  uri : String
  psk : String
  dumpTraffic : Bool
deriving DecidableEq

/-- Boundary part `(/?|\\)($|\?.*)` of the endpoint regex, applied to what
follows the endpoint: the remainder must be empty, a query string, or exactly
one `/` or `\` optionally followed by a query string. -/
def endpointBoundaryOk (t : String) : Bool :=
  t = "" || strStartsWith t "?" ||
    ((strStartsWith t "/" || strStartsWith t "\\") &&
      (strDrop t 1 = "" || strStartsWith (strDrop t 1) "?"))

/-- Test of one endpoint inside `endpointsMatcher`: the regex
`^<allowedEndpoint>(/?|\\)($|\?.*)` applied with `RegExp.test`, with the
endpoint interpolated as a literal string (the source interpolates it into the
pattern verbatim; endpoints are path literals without regex metacharacters).
The string matches iff it starts with the endpoint and the remainder passes
the boundary test `endpointBoundaryOk`, the `(/?|\\)($|\?.*)` part of the
regex. -/
def matchesEndpoint (allowedEndpoint s : String) : Bool :=
  strStartsWith s allowedEndpoint &&
    endpointBoundaryOk (strDrop s (strLen allowedEndpoint))

/-- Function `endpointsMatcher` from `src/middleware.ts`: `forEach` over the endpoint
list, overwriting `matchedEndpoint` each time the regex matches, starting from
`""`; returns the matched endpoint or `""`. -/
def endpointsMatcher (endpoints : List String) (endpointToCheck : String) : String :=
  endpoints.foldl
    (fun matchedEndpoint allowedEndpoint =>
      if matchesEndpoint allowedEndpoint endpointToCheck then allowedEndpoint
      else matchedEndpoint)
    ""

/-- Function `removeExtraSlash` from `src/middleware.ts`: if the character right after
the matched endpoint is `/` or `\`, drop that single character. -/
def removeExtraSlash (expectedEndpoint actualUrl : String) : String :=
  let indexAfterEndpoint := strLen expectedEndpoint
  let characterAfterEndpoint := strCharAt actualUrl indexAfterEndpoint
  if characterAfterEndpoint = "/" || characterAfterEndpoint = "\\" then
    strTake actualUrl indexAfterEndpoint ++ strDrop actualUrl (indexAfterEndpoint + 1)
  else actualUrl

/-- The abstract inbound request the middleware inspects: its url (path plus
query string; `req.url` for micro, `req.originalUrl` for express/connect),
its method, and the value of the `x-engine-from` header (`none` = header
absent, so the JS `===` comparison with the secret is false). -/
structure Req where
  url : String
  method : String
  xEngineFrom : Option String
deriving DecidableEq

/-- What a router middleware does with a request: call the local handler, or
forward to the companion with the given (possibly rewritten) url. -/
inductive RouteAction
  | passThrough
  | forward (url : String)
deriving DecidableEq

/-- The per-request decision of `makeMicroMiddleware`. -/
def microMiddleware (params : MiddlewareParams) (req : Req) : RouteAction :=
  let requestUrl := req.url
  let matchingEndpoint := endpointsMatcher params.endpoints requestUrl
  if params.uri == "" || matchingEndpoint == "" then .passThrough
  else if req.method != "GET" && req.method != "POST" then .passThrough
  else if req.xEngineFrom == some params.psk then .passThrough
  else .forward (removeExtraSlash matchingEndpoint requestUrl)

/-- The per-request decision of `makeExpressMiddleware` (matching on
`req.originalUrl`, modelled by `req.url`). -/
def expressMiddleware (params : MiddlewareParams) (req : Req) : RouteAction :=
  let matchingEndpoint := endpointsMatcher params.endpoints req.url
  if params.uri == "" || matchingEndpoint == "" then .passThrough
  else if req.method != "GET" && req.method != "POST" then .passThrough
  else if req.xEngineFrom == some params.psk then .passThrough
  else .forward (removeExtraSlash matchingEndpoint req.url)

/-- The per-request decision of `makeConnectMiddleware` (same body as the
express variant in the source). -/
def connectMiddleware (params : MiddlewareParams) (req : Req) : RouteAction :=
  let matchingEndpoint := endpointsMatcher params.endpoints req.url
  if params.uri == "" || matchingEndpoint == "" then .passThrough
  else if req.method != "GET" && req.method != "POST" then .passThrough
  else if req.xEngineFrom == some params.psk then .passThrough
  else .forward (removeExtraSlash matchingEndpoint req.url)

/-- The koa request context fields the middleware inspects: `ctx.path` (no
query string), `ctx.originalUrl`, `ctx.req.method`, and the `x-engine-from`
header. -/
structure KoaCtx where
  path : String
  originalUrl : String
  method : String
  xEngineFrom : Option String
deriving DecidableEq

/-- What the koa middleware does: call `next()`, or open a proxy request to
the given url. -/
inductive KoaAction
  | next
  | proxy (url : String)
deriving DecidableEq

/-- The per-request decision of `makeKoaMiddleware`. Note that the source
computes `endpointChecker(ctx.path)` but its branch condition tests
`params.endpoints.includes(ctx.path)` — exact membership, not the regex
matcher used by the other variants. -/
def koaMiddleware (params : MiddlewareParams) (ctx : KoaCtx) : KoaAction :=
  if params.uri == "" || !(params.endpoints.contains ctx.path) then .next
  else if ctx.xEngineFrom == some params.psk then .next
  else if ctx.method != "GET" && ctx.method != "POST" then .next
  else .proxy (params.uri ++ ctx.originalUrl)

/-- The result of the outbound transport to the companion, as observed by
`proxyRequest`: either an `error` event on the piped request (connection
refused, reset, timeout), or an upstream response. -/
inductive TransportResult
  | failed
  | succeeded (status : Nat) (headers : List (String × String)) (body : String)
deriving DecidableEq

/-- What `proxyRequest` sends back to the original caller. -/
inductive ProxyOutcome
  | respond503
  | upstream (status : Nat) (headers : List (String × String)) (body : String)
deriving DecidableEq

/-- The response behaviour of `proxyRequest` from `src/middleware.ts`: on an
`error` event it writes head 503 and ends the response (no retry, no thrown
exception); otherwise the piped upstream response (status, headers, body) is
streamed back to the caller. -/
def proxyRequest (t : TransportResult) : ProxyOutcome :=
  match t with
  | .failed => .respond503
  | .succeeded status headers body => .upstream status headers body

/-- How the promise returned by the koa middleware settles. A `rejected`
outcome is a promise rejection: the error escapes to the framework rather
than producing a response from this middleware. -/
inductive KoaProxyOutcome
  | rejected (msg : String)
  | fulfilled (status : Nat) (headers : List (String × String)) (body : String)
deriving DecidableEq

/-- True exactly on an outcome that answers the caller with status 503. -/
def KoaProxyOutcome.respondsWith503 : KoaProxyOutcome → Bool
  | .fulfilled 503 _ _ => true
  | _ => false

/-- The `request` callback inside `makeKoaMiddleware`: on
`!!error || !response || !response.statusCode` it rejects with
`Missing response from Engine proxy.`; otherwise it copies status, headers and
body onto the koa response and resolves. `response` is `none` when the
transport failed before producing any response; a falsy `statusCode` is
modelled as `0`. -/
def koaProxyCallback (error : Bool)
    (response : Option (Nat × List (String × String))) (body : String) :
    KoaProxyOutcome :=
  match error, response with
  | true, _ => .rejected "Missing response from Engine proxy."
  | false, none => .rejected "Missing response from Engine proxy."
  | false, some (statusCode, headers) =>
    if statusCode = 0 then .rejected "Missing response from Engine proxy."
    else .fulfilled statusCode headers body

/-! ## Launcher (`src/launcher.ts`) and the legacy `Engine` supervisor -/

/-- Function `joinHostPort` from `src/launcher.ts`: literal IPv6 addresses (containing
a colon) are wrapped in square brackets. -/
def joinHostPort (host : String) (port : Int) : String :=
  (if strContainsChar host ':' then "[" ++ host ++ "]" else host) ++ ":" ++ toString port

/-- The `ListeningAddress` reported by the companion on the side channel,
together with the `url` field the launcher derives from it. -/
structure ListeningAddress where
  ip : String
  port : Int
  url : String
deriving DecidableEq

/-- The address object built by the side-channel end handler from a parsed
`{ip, port}` payload: IPs meaning "any address" (`""` or `"::"`) become
`localhost` in the derived url. -/
def deriveListeningAddress (ip : String) (port : Int) : ListeningAddress :=
  let hostForUrl := if ip = "" || ip = "::" then "localhost" else ip
  ⟨ip, port, "http://" ++ joinHostPort hostForUrl port⟩

/-- Events the launcher emits on itself (the `'start'` event doubles as the
"ready" notification). -/
inductive LEvent
  | start (la : ListeningAddress)
  | error (msg : String)
  | restarting (msg : String)
deriving DecidableEq

/-- What the handler installed on side-channel stream `end` does, given the
accumulated bytes. `quiet` = the handler returns without doing anything;
`emitStart` = it emits the `'start'` ("ready") event; `thrown` = an exception
is thrown out of the handler (an uncaught exception in the event loop — no
event is emitted on the launcher and the pending `start()` promise is not
settled by it); `emitError` = an `'error'` event is emitted on the launcher
(only the separate side-channel stream `error` handler does this). -/
inductive SideChannelOutcome
  | quiet
  | emitStart (la : ListeningAddress)
  | thrown
  | emitError (msg : String)
deriving DecidableEq

/-- True exactly on the outcome that reports a side-channel error event. -/
def SideChannelOutcome.isEmitError : SideChannelOutcome → Bool
  | .emitError _ => true
  | _ => false

/-- The side-channel `end` handler from `src/launcher.ts`: if nothing was
accumulated this is ordinary process teardown and the handler does nothing;
otherwise the bytes are fed to `JSON.parse`. The parameter `parsed` is the
result of `JSON.parse(acc)` as an `{ip, port}` pair, with `none` meaning the
parse throws — in which case the exception propagates out of the handler
(`JSON.parse` is called outside any try/catch). -/
def onSideChannelEnd (acc : String) (parsed : Option (String × Int)) :
    SideChannelOutcome :=
  if acc = "" then .quiet
  else
    match parsed with
    | some (ip, port) => .emitStart (deriveListeningAddress ip port)
    | none => .thrown

/-- The side-channel stream `error` handler: re-emits the stream error as an
`'error'` event on the launcher. -/
def onSideChannelStreamError (msg : String) : SideChannelOutcome := .emitError msg

/-- What an exit handler does, beyond clearing state: the events it emits and
whether it calls `spawnChild()` again (a respawn reuses the same closed-over
configuration, with no backoff and no restart count). -/
structure ExitResult where
  events : List LEvent
  respawn : Bool
deriving DecidableEq

/-- The message of the fatal configuration error emitted on the sentinel exit
code 78. -/
def fatalConfigMsg : String := "Engine crashed due to invalid configuration."

/-- The `'restarting'` message for an unexpected exit code. -/
def crashedWithCodeMsg (code : Int) : String :=
  "Engine crashed unexpectedly with code: " ++ toString code

/-- The `'restarting'` message for an unexpected termination signal. -/
def killedBySignalMsg (signal : String) : String :=
  "Engine was killed unexpectedly by signal: " ++ signal

/-- The child `exit` handler from `src/launcher.ts`. `childOwned` is the test
`this.child` being non-null: both `stop()` and the startup-timeout cleanup
null the owned-child reference before the exit fires, so `childOwned = false`
means the exit was requested or already cleaned up and the handler returns
immediately. Code 78 emits the fatal configuration error and does not
respawn; otherwise a `'restarting'` notification is emitted for a non-null
code and/or a non-null signal, and `spawnChild()` is called again. -/
def launcherExitHandler (childOwned : Bool) (code : Option Int)
    (signal : Option String) : ExitResult :=
  if !childOwned then ⟨[], false⟩
  else if code = some 78 then ⟨[.error fatalConfigMsg], false⟩
  else
    ⟨(match code with
      | some c => [LEvent.restarting (crashedWithCodeMsg c)]
      | none => []) ++
     (match signal with
      | some s => [LEvent.restarting (killedBySignalMsg s)]
      | none => []), true⟩

/-- The mutable state of the legacy `Engine` supervisor that its child `exit`
handler touches: the shared `middlewareParams.uri` cell and the `running`
flag (`stop()` and the startup-timeout cleanup both set `running = false`
before the exit fires). -/
structure EngineProcState where
  uri : String
  running : Bool
deriving DecidableEq

/-- The child `exit` handler of the legacy `Engine.start`: it first wipes the
shared uri cell unconditionally (so middleware stops routing to the dead
process), then returns if the exit was self-inflicted, emits the fatal error
on code 78 without respawning, and otherwise emits `'restarting'` and calls
`spawnChild()` again. -/
def engineExitHandler (st : EngineProcState) (code : Option Int)
    (signal : Option String) : EngineProcState × ExitResult :=
  let st2 : EngineProcState := { st with uri := "" }
  if !st2.running then (st2, ⟨[], false⟩)
  else if code = some 78 then (st2, ⟨[.error fatalConfigMsg], false⟩)
  else
    (st2,
     ⟨(match code with
       | some c => [LEvent.restarting (crashedWithCodeMsg c)]
       | none => []) ++
      (match signal with
       | some s => [LEvent.restarting (killedBySignalMsg s)]
       | none => []), true⟩)

/-- How the promise returned by `start()` settles. -/
inductive StartOutcome
  | resolved (la : ListeningAddress)
  | rejectedWith (msg : String)
deriving DecidableEq

/-- Whether `start()` arms the startup timer (`src/launcher.ts`:
`options.startupTimeout === undefined || options.startupTimeout > 0`;
`none` models an unset option). -/
def timerArmed : Option Int → Bool
  | none => true
  | some t => decide (0 < t)

/-- The delay passed to `setTimeout` when the timer is armed
(`options.startupTimeout || 5000`; `0` is falsy in JS). -/
def timerDelay : Option Int → Int
  | none => 5000
  | some t => if t = 0 then 5000 else t

/-- The `startupTimeout` field computed by the legacy `Engine` constructor:
`5000` when the option is undefined, the given value otherwise. -/
def engineStartupTimeout : Option Int → Int
  | none => 5000
  | some t => t

/-- What firing the startup timer does: the owned-child reference afterwards,
whether the child was forcibly killed (`SIGKILL`), and how the pending
`start()` settles. -/
structure TimeoutFireResult where
  child : Option Nat
  killedChild : Bool
  outcome : StartOutcome
deriving DecidableEq

/-- The startup-timer callback from `src/launcher.ts`: if a child is owned it
is killed with `SIGKILL` and the reference cleared; either way the pending
`start()` rejects with a timeout error. -/
def startupTimeoutFire (child : Option Nat) : TimeoutFireResult :=
  match child with
  | some _ => ⟨none, true, .rejectedWith "engineproxy timed out"⟩
  | none => ⟨none, false, .rejectedWith "engineproxy timed out"⟩

/-- What the `'start'` listener registered by `start()` does when the ready
event fires: `timerCanceled` records the `clearTimeout` call, and the pending
promise resolves with the listening address. -/
structure OnStartResult where
  timerCanceled : Bool
  outcome : StartOutcome
deriving DecidableEq

/-- The `'start'` listener body from `src/launcher.ts`: `clearTimeout`, then
resolve with the reported listening address. -/
def launcherOnStart (la : ListeningAddress) : OnStartResult :=
  ⟨true, .resolved la⟩

/-! ## Precise-mode configuration check (legacy `Engine.start`) -/

/-- A frontend entry of the engine configuration (fields as in the
`FrontendConfig` interface; only presence matters to the precise-mode
check). -/
structure FrontendConfig where
  host : String
  port : Int
  endpoints : List String
deriving DecidableEq

/-- The `http` section of an origin entry. -/
structure OriginHttpConfig where
  url : String
  headerSecret : String
deriving DecidableEq

/-- An origin entry of the engine configuration. -/
structure OriginConfig where
  http : Option OriginHttpConfig
deriving DecidableEq

/-- The parts of the `EngineConfig` document the precise-mode check inspects:
the `frontends` and `origins` keys, each either absent (`none`) or a list. -/
structure EngineConfigObj where
  frontends : Option (List FrontendConfig)
  origins : Option (List OriginConfig)
deriving DecidableEq

/-- The `engineConfig` option: either a file path or a configuration
object. -/
inductive EngineConfigValue
  | file (path : String)
  | obj (cfg : EngineConfigObj)
deriving DecidableEq

/-- The error thrown when precise mode finds no `frontends` key. -/
def errNoFrontend : String :=
  "Cannot run Apollo Engine with no frontend. Either specify at least one frontend in your engine-config or set useConfigPrecisely to false."

/-- The error thrown when precise mode finds no `origins` key. -/
def errNoOrigin : String :=
  "Cannot run Apollo Engine with no origin. Either specify at least one origin in your engine-config or set useConfigPrecisely to false."

/-- The `useConfigPrecisely` branch of the legacy `Engine.start`, run before
any process is spawned: a string (file path) configuration is used as-is with
no check; an object configuration throws if `this.config.frontends` is
`undefined`, then if `this.config.origins` is `undefined`, and otherwise
becomes `finalConfig` unmodified. An `Except.error` is the thrown error. -/
def preciseConfigCheck : EngineConfigValue → Except String EngineConfigValue
  | .file p => .ok (.file p)
  | .obj cfg =>
    if cfg.frontends = none then .error errNoFrontend
    else if cfg.origins = none then .error errNoOrigin
    else .ok (.obj cfg)

/-- Spec-side predicate for C9: the configuration object contains at least
one frontend entry. -/
def hasAtLeastOneFrontend (cfg : EngineConfigObj) : Bool :=
  match cfg.frontends with
  | some (_ :: _) => true
  | _ => false

/-- Spec-side predicate for C9: the configuration object contains at least
one origin entry. -/
def hasAtLeastOneOrigin (cfg : EngineConfigObj) : Bool :=
  match cfg.origins with
  | some (_ :: _) => true
  | _ => false

/-! ## String lemmas -/

theorem mk_data (s : String) : String.mk s.data = s := by
  cases s
  rfl

theorem data_append (a b : String) : (a ++ b).data = a.data ++ b.data := by
  cases a
  cases b
  rfl

theorem str_append_assoc (a b c : String) : a ++ b ++ c = a ++ (b ++ c) := by
  cases a
  cases b
  cases c
  show String.mk _ = String.mk _
  rw [List.append_assoc]

theorem isPrefixOf_self_append (l₁ l₂ : List Char) :
    l₁.isPrefixOf (l₁ ++ l₂) = true := by
  induction l₁ with
  | nil => simp [List.isPrefixOf]
  | cons a as ih => simp [List.isPrefixOf, ih]

theorem strStartsWith_append (p t : String) : strStartsWith (p ++ t) p = true := by
  simp [strStartsWith, data_append, isPrefixOf_self_append]

theorem strDrop_append_len (p t : String) : strDrop (p ++ t) (strLen p) = t := by
  simp [strDrop, strLen, data_append, List.drop_left, mk_data]

theorem strDrop_len_self (s : String) : strDrop s (strLen s) = "" := by
  cases s with
  | mk l =>
    show String.mk (l.drop l.length) = ""
    rw [List.drop_length]

theorem str_append_empty (s : String) : s ++ "" = s := by
  cases s with
  | mk l =>
    show String.mk (l ++ []) = String.mk l
    rw [List.append_nil]

/-! ## Boundary behaviour of the endpoint regex -/

theorem matchesEndpoint_append (E t : String) :
    matchesEndpoint E (E ++ t) = endpointBoundaryOk t := by
  simp [matchesEndpoint, strStartsWith_append, strDrop_append_len]

theorem matchesEndpoint_self (E : String) : matchesEndpoint E E = true := by
  nth_rewrite 2 [(str_append_empty E).symm]
  rw [matchesEndpoint_append]
  decide

theorem boundaryOk_qmark (q : String) :
    endpointBoundaryOk ("?" ++ q) = true := by
  simp [endpointBoundaryOk, strStartsWith_append]

theorem boundaryOk_sep_qmark (sep q : String)
    (hsep : sep = "/" ∨ sep = "\\") :
    endpointBoundaryOk (sep ++ ("?" ++ q)) = true := by
  rcases hsep with h | h <;> subst h
  · have h2 := strDrop_append_len "/" ("?" ++ q)
    rw [show strLen "/" = 1 from rfl] at h2
    simp [endpointBoundaryOk, strStartsWith_append, h2]
  · have h2 := strDrop_append_len "\\" ("?" ++ q)
    rw [show strLen "\\" = 1 from rfl] at h2
    simp [endpointBoundaryOk, strStartsWith_append, h2]

theorem boundaryOk_cons_false (c : Char) (rest : List Char)
    (h1 : c ≠ '/') (h2 : c ≠ '\\') (h3 : c ≠ '?') :
    endpointBoundaryOk (String.mk (c :: rest)) = false := by
  simp [endpointBoundaryOk, strStartsWith, List.isPrefixOf,
    String.ext_iff, h1, h2, h3]
  constructor
  · exact fun h => h3 h.symm
  · rintro (h | h)
    · exact absurd h.symm h1
    · exact absurd h.symm h2

theorem foldl_matcher_no_match (s : String) (post : List String) :
    ∀ acc : String, (∀ e ∈ post, matchesEndpoint e s = false) →
      post.foldl
        (fun matchedEndpoint allowedEndpoint =>
          if matchesEndpoint allowedEndpoint s then allowedEndpoint
          else matchedEndpoint) acc = acc := by
  induction post with
  | nil => intro acc _; rfl
  | cons e rest ih =>
    intro acc h
    rw [List.foldl_cons]
    have he : matchesEndpoint e s = false := h e (List.mem_cons_self e rest)
    rw [he]
    simp only [Bool.false_eq_true, if_false]
    exact ih acc (fun e' he' => h e' (List.mem_cons_of_mem e he'))

/-- C2 (counterexample): for the endpoint set `["/graphql"]`, the path
`"/graphql/"` matches the configured endpoint per the boundary rule (the
regex used by the other middleware variants accepts it), yet the koa
middleware passes the request through — with a non-empty uri cell, method
POST and no `x-engine-from` header — because its branch condition tests exact
membership of `ctx.path` in the endpoint list. -/
theorem koa_slash_path_not_forwarded :
    matchesEndpoint "/graphql" "/graphql/" = true ∧
    koaMiddleware ⟨["/graphql"], "http://127.0.0.1:1234", "secret", false⟩
      ⟨"/graphql/", "/graphql/", "POST", none⟩ = KoaAction.next :=
  ⟨by decide, by decide⟩

/-- C2 (amended): for the matcher used by the micro/express/connect variants,
a path that is exactly `E`, or `E` followed by exactly one `/` or `\` and/or
a query string, matches `E`, and `E` followed by any other character does
not; the koa middleware, however, is eligible to forward only when `ctx.path`
is exactly equal to a configured endpoint (`E` plus a separator passes
through there). -/
theorem endpoint_boundary_rule (E q rest : String) (c : Char)
    (params : MiddlewareParams) (ctx : KoaCtx)
    (hc1 : c ≠ '/') (hc2 : c ≠ '\\') (hc3 : c ≠ '?') :
    matchesEndpoint E E = true ∧
    matchesEndpoint E (E ++ "/") = true ∧
    matchesEndpoint E (E ++ "\\") = true ∧
    matchesEndpoint E (E ++ "?" ++ q) = true ∧
    matchesEndpoint E (E ++ "/" ++ "?" ++ q) = true ∧
    matchesEndpoint E (E ++ "\\" ++ "?" ++ q) = true ∧
    matchesEndpoint E (E ++ String.singleton c ++ rest) = false ∧
    (koaMiddleware params ctx ≠ KoaAction.next →
      params.endpoints.contains ctx.path = true) := by
  refine ⟨matchesEndpoint_self E, ?_, ?_, ?_, ?_, ?_, ?_, ?_⟩
  · rw [matchesEndpoint_append]
    decide
  · rw [matchesEndpoint_append]
    decide
  · rw [str_append_assoc, matchesEndpoint_append]
    exact boundaryOk_qmark q
  · rw [str_append_assoc, str_append_assoc, matchesEndpoint_append]
    exact boundaryOk_sep_qmark "/" q (Or.inl rfl)
  · rw [str_append_assoc, str_append_assoc, matchesEndpoint_append]
    exact boundaryOk_sep_qmark "\\" q (Or.inr rfl)
  · rw [str_append_assoc, matchesEndpoint_append]
    have hmk : String.singleton c ++ rest = String.mk (c :: rest.data) := by
      cases rest
      rfl
    rw [hmk]
    exact boundaryOk_cons_false c rest.data hc1 hc2 hc3
  · intro h
    by_cases hcont : params.endpoints.contains ctx.path = true
    · exact hcont
    · exfalso
      apply h
      have hmem : ctx.path ∉ params.endpoints := by simpa using hcont
      simp [koaMiddleware, hmem]

/-- Witness for the amended C2 at `E = "/graphql"`, query `"x=1"`, extra
character `'e'`, and a koa request for `"/graphql"` itself. -/
theorem endpoint_boundary_rule_witness :
    matchesEndpoint "/graphql" "/graphql" = true ∧
    matchesEndpoint "/graphql" ("/graphql" ++ "/") = true ∧
    matchesEndpoint "/graphql" ("/graphql" ++ "\\") = true ∧
    matchesEndpoint "/graphql" ("/graphql" ++ "?" ++ "x=1") = true ∧
    matchesEndpoint "/graphql" ("/graphql" ++ "/" ++ "?" ++ "x=1") = true ∧
    matchesEndpoint "/graphql" ("/graphql" ++ "\\" ++ "?" ++ "x=1") = true ∧
    matchesEndpoint "/graphql" ("/graphql" ++ String.singleton 'e' ++ "xtra") = false ∧
    (koaMiddleware ⟨["/graphql"], "http://127.0.0.1:1234", "secret", false⟩
        ⟨"/graphql", "/graphql", "POST", none⟩ ≠ KoaAction.next →
      (["/graphql"] : List String).contains "/graphql" = true) :=
  endpoint_boundary_rule "/graphql" "x=1" "xtra" 'e'
    ⟨["/graphql"], "http://127.0.0.1:1234", "secret", false⟩
    ⟨"/graphql", "/graphql", "POST", none⟩
    (by decide) (by decide) (by decide)

/-- C8 (counterexample): with the endpoint set `["/a/", "/a"]` and the
request path `"/a/"`, both configured prefixes match, `"/a/"` is the longer
match, yet `endpointsMatcher` returns `"/a"` — the matcher keeps the last
matching endpoint in list order, not the longest. -/
theorem matcher_picks_last_not_longest :
    matchesEndpoint "/a/" "/a/" = true ∧
    matchesEndpoint "/a" "/a/" = true ∧
    strLen "/a" < strLen "/a/" ∧
    endpointsMatcher ["/a/", "/a"] "/a/" = "/a" := by
  decide

/-- C8 (amended): when several configured endpoint prefixes match a request
path, the router selects the one occurring last in the configured list order
(the `forEach` overwrites the previous match), which need not be the longest:
if `ep` matches and every endpoint listed after it does not, the matcher
returns `ep`. -/
theorem matcher_selects_last_match (pre : List String) (ep : String)
    (post : List String) (s : String) (hep : matchesEndpoint ep s = true)
    (hpost : ∀ e ∈ post, matchesEndpoint e s = false) :
    endpointsMatcher (pre ++ ep :: post) s = ep := by
  unfold endpointsMatcher
  rw [List.foldl_append, List.foldl_cons, hep]
  simp only [if_true]
  exact foldl_matcher_no_match s post ep hpost

/-- Witness for the amended C8 at `pre = ["/a/"]`, `ep = "/a"`, `post = []`,
path `"/a/"`. -/
theorem matcher_selects_last_match_witness :
    matchesEndpoint "/a" "/a/" = true ∧
    endpointsMatcher ["/a/", "/a"] "/a/" = "/a" :=
  ⟨by decide,
   matcher_selects_last_match ["/a/"] "/a" [] "/a/" (by decide) (by simp)⟩

theorem microForward_iff (params : MiddlewareParams) (r : Req) :
    microMiddleware params r ≠ RouteAction.passThrough ↔
      (params.uri ≠ "" ∧ endpointsMatcher params.endpoints r.url ≠ "" ∧
        (r.method = "GET" ∨ r.method = "POST") ∧
        r.xEngineFrom ≠ some params.psk) := by
  by_cases h1 : params.uri = ""
  · simp [microMiddleware, h1]
  · by_cases h2 : endpointsMatcher params.endpoints r.url = ""
    · simp [microMiddleware, h1, h2]
    · by_cases hm : r.method = "GET" ∨ r.method = "POST"
      · by_cases hp : r.xEngineFrom = some params.psk
        · rcases hm with hg | hg <;> simp [microMiddleware, h1, h2, hg, hp]
        · rcases hm with hg | hg <;> simp [microMiddleware, h1, h2, hg, hp]
      · push_neg at hm
        simp [microMiddleware, h1, h2, hm.1, hm.2]

/-- C1: a request handled by the micro, express or connect middleware is
forwarded to the companion if and only if the uri cell is non-empty, the url
matches the configured endpoint set (the matcher finds a matching endpoint),
the method is GET or POST, and the `x-engine-from` header differs from the
shared secret; in every other case it passes through to the local handler. -/
theorem router_forward_iff_conditions (params : MiddlewareParams) (r : Req) :
    (microMiddleware params r ≠ RouteAction.passThrough ↔
      (params.uri ≠ "" ∧ endpointsMatcher params.endpoints r.url ≠ "" ∧
        (r.method = "GET" ∨ r.method = "POST") ∧
        r.xEngineFrom ≠ some params.psk)) ∧
    (expressMiddleware params r ≠ RouteAction.passThrough ↔
      (params.uri ≠ "" ∧ endpointsMatcher params.endpoints r.url ≠ "" ∧
        (r.method = "GET" ∨ r.method = "POST") ∧
        r.xEngineFrom ≠ some params.psk)) ∧
    (connectMiddleware params r ≠ RouteAction.passThrough ↔
      (params.uri ≠ "" ∧ endpointsMatcher params.endpoints r.url ≠ "" ∧
        (r.method = "GET" ∨ r.method = "POST") ∧
        r.xEngineFrom ≠ some params.psk)) := by
  have h := microForward_iff params r
  have hexp : expressMiddleware params r = microMiddleware params r := rfl
  have hcon : connectMiddleware params r = microMiddleware params r := rfl
  exact ⟨h, by rw [hexp]; exact h, by rw [hcon]; exact h⟩

/-- C3 (counterexample): when the outbound transport of the koa middleware
fails (`error` set, no response), the middleware rejects its promise with
`Missing response from Engine proxy.` — the error escapes to the framework —
and does not answer the caller with a 503. -/
theorem koa_transport_failure_rejects :
    koaProxyCallback true none "" =
      KoaProxyOutcome.rejected "Missing response from Engine proxy." ∧
    (koaProxyCallback true none "").respondsWith503 = false :=
  ⟨rfl, rfl⟩

/-- C3 (amended): on a transport-level failure `proxyRequest` — used by the
micro, express, connect and hapi variants — answers the original caller with
a bare 503 and does not retry (the error handler is the only reaction, no
exception escapes); the koa middleware instead rejects its promise with
`Missing response from Engine proxy.`, both on a transport error and on a
missing upstream response, so the error escapes to the framework rather than
producing a 503. On success the upstream status, headers and body are passed
back. -/
theorem transport_failure_outcomes (status : Nat)
    (headers : List (String × String)) (body : String)
    (resp : Option (Nat × List (String × String))) :
    proxyRequest TransportResult.failed = ProxyOutcome.respond503 ∧
    proxyRequest (TransportResult.succeeded status headers body) =
      ProxyOutcome.upstream status headers body ∧
    koaProxyCallback true resp body =
      KoaProxyOutcome.rejected "Missing response from Engine proxy." ∧
    koaProxyCallback false none body =
      KoaProxyOutcome.rejected "Missing response from Engine proxy." := by
  refine ⟨rfl, rfl, ?_, rfl⟩
  cases resp <;> rfl

/-- C4: when the child exits while still owned (no `stop()` call and no
startup-timeout cleanup preceded the exit, so the owned-child reference and
the `running` flag are still set), the exit is classified: the sentinel exit
code 78 emits the fatal configuration error and does not respawn; any other
non-zero exit code, and any termination signal, emits a single `'restarting'`
notification and respawns immediately (the handler calls `spawnChild()` again
with the same retained configuration, with no backoff and no restart count).
This holds for both the `ApolloEngineLauncher` and the legacy `Engine`
handler. -/
theorem exit_classification (c : Int) (sig uri : String)
    (hc78 : c ≠ 78) (hc0 : c ≠ 0) :
    launcherExitHandler true (some 78) none =
      ⟨[.error fatalConfigMsg], false⟩ ∧
    launcherExitHandler true (some c) none =
      ⟨[.restarting (crashedWithCodeMsg c)], true⟩ ∧
    launcherExitHandler true none (some sig) =
      ⟨[.restarting (killedBySignalMsg sig)], true⟩ ∧
    (engineExitHandler ⟨uri, true⟩ (some 78) none).2 =
      ⟨[.error fatalConfigMsg], false⟩ ∧
    (engineExitHandler ⟨uri, true⟩ (some c) none).2 =
      ⟨[.restarting (crashedWithCodeMsg c)], true⟩ ∧
    (engineExitHandler ⟨uri, true⟩ none (some sig)).2 =
      ⟨[.restarting (killedBySignalMsg sig)], true⟩ := by
  refine ⟨?_, ?_, ?_, ?_, ?_, ?_⟩ <;>
    simp [launcherExitHandler, engineExitHandler, hc78]

/-- Witness for C4 at exit code 1, signal `SIGKILL`, and a running legacy
engine whose uri cell holds `http://127.0.0.1:4001`. -/
theorem exit_classification_witness :
    (1 : Int) ≠ 78 ∧ (1 : Int) ≠ 0 ∧
    (launcherExitHandler true (some 78) none =
      ⟨[.error fatalConfigMsg], false⟩ ∧
    launcherExitHandler true (some 1) none =
      ⟨[.restarting (crashedWithCodeMsg 1)], true⟩ ∧
    launcherExitHandler true none (some "SIGKILL") =
      ⟨[.restarting (killedBySignalMsg "SIGKILL")], true⟩ ∧
    (engineExitHandler ⟨"http://127.0.0.1:4001", true⟩ (some 78) none).2 =
      ⟨[.error fatalConfigMsg], false⟩ ∧
    (engineExitHandler ⟨"http://127.0.0.1:4001", true⟩ (some 1) none).2 =
      ⟨[.restarting (crashedWithCodeMsg 1)], true⟩ ∧
    (engineExitHandler ⟨"http://127.0.0.1:4001", true⟩ none (some "SIGKILL")).2 =
      ⟨[.restarting (killedBySignalMsg "SIGKILL")], true⟩) :=
  ⟨by decide, by decide,
   exit_classification 1 "SIGKILL" "http://127.0.0.1:4001" (by decide) (by decide)⟩

/-- C10: a child exit with code 0 while still owned is treated like a
transient crash by both exit handlers: a `'restarting'` notification naming
code 0 is emitted and the companion is respawned, even though 0 is not a
non-zero exit code (the handlers test `code != null`, not `code !== 0`). -/
theorem exit_code_zero_respawns (uri : String) :
    launcherExitHandler true (some 0) none =
      ⟨[.restarting (crashedWithCodeMsg 0)], true⟩ ∧
    (engineExitHandler ⟨uri, true⟩ (some 0) none).2 =
      ⟨[.restarting (crashedWithCodeMsg 0)], true⟩ := by
  constructor <;>
    simp [launcherExitHandler, engineExitHandler, show (0 : Int) ≠ 78 by decide]

/-- C5: on every exit of the legacy engine child — whatever the exit code,
signal, or prior state — the handler's resulting state has an empty uri cell
(the wipe happens before the early return and before any classification), and
whenever the uri cell is empty every middleware variant passes the request
through to the local handler. -/
theorem exit_clears_uri_then_pass_through (st : EngineProcState)
    (code : Option Int) (signal : Option String) (params : MiddlewareParams)
    (r : Req) (ctx : KoaCtx) (huri : params.uri = "") :
    (engineExitHandler st code signal).1.uri = "" ∧
    microMiddleware params r = RouteAction.passThrough ∧
    expressMiddleware params r = RouteAction.passThrough ∧
    connectMiddleware params r = RouteAction.passThrough ∧
    koaMiddleware params ctx = KoaAction.next := by
  refine ⟨?_, ?_, ?_, ?_, ?_⟩
  · by_cases hr : st.running = true <;> by_cases hc : code = some 78 <;>
      simp [engineExitHandler, hr, hc]
  · simp [microMiddleware, huri]
  · simp [expressMiddleware, huri]
  · simp [connectMiddleware, huri]
  · simp [koaMiddleware, huri]

/-- Witness for C5: a crash with code 1 out of a running state, and a POST to
the configured endpoint `/graphql` with no trust header while the cell is
empty. -/
theorem exit_clears_uri_then_pass_through_witness :
    (⟨["/graphql"], "", "secret", false⟩ : MiddlewareParams).uri = "" ∧
    ((engineExitHandler ⟨"http://127.0.0.1:4001", true⟩ (some 1) none).1.uri = "" ∧
     microMiddleware ⟨["/graphql"], "", "secret", false⟩
       ⟨"/graphql", "POST", none⟩ = RouteAction.passThrough ∧
     expressMiddleware ⟨["/graphql"], "", "secret", false⟩
       ⟨"/graphql", "POST", none⟩ = RouteAction.passThrough ∧
     connectMiddleware ⟨["/graphql"], "", "secret", false⟩
       ⟨"/graphql", "POST", none⟩ = RouteAction.passThrough ∧
     koaMiddleware ⟨["/graphql"], "", "secret", false⟩
       ⟨"/graphql", "/graphql", "POST", none⟩ = KoaAction.next) :=
  ⟨rfl,
   exit_clears_uri_then_pass_through ⟨"http://127.0.0.1:4001", true⟩ (some 1)
     none ⟨["/graphql"], "", "secret", false⟩ ⟨"/graphql", "POST", none⟩
     ⟨"/graphql", "/graphql", "POST", none⟩ rfl⟩

/-- C6: `start()` arms the startup timer when `startupTimeout` is unset
(defaulting to a 5000ms delay) or positive; a value of zero or less arms no
timer, so `start()` waits indefinitely. When the timer fires with a child
still owned, the child is killed (`SIGKILL`), the owned-child reference is
cleared, and the pending `start()` rejects with the timeout error; when the
`'start'` ("ready") event fires, the timer is canceled and the promise
resolves. The legacy engine constructor uses the same 5000ms default. -/
theorem startup_timeout_behavior (tpos tnonpos : Int) (pid : Nat)
    (la : ListeningAddress) (hpos : 0 < tpos) (hnp : tnonpos ≤ 0) :
    timerArmed none = true ∧
    timerDelay none = 5000 ∧
    timerArmed (some tpos) = true ∧
    timerDelay (some tpos) = tpos ∧
    timerArmed (some tnonpos) = false ∧
    startupTimeoutFire (some pid) =
      ⟨none, true, .rejectedWith "engineproxy timed out"⟩ ∧
    launcherOnStart la = ⟨true, .resolved la⟩ ∧
    engineStartupTimeout none = 5000 := by
  refine ⟨rfl, rfl, ?_, ?_, ?_, rfl, rfl, rfl⟩
  · simp [timerArmed, hpos]
  · have hne : tpos ≠ 0 := by omega
    simp [timerDelay, hne]
  · have hngt : ¬(0 : Int) < tnonpos := by omega
    simp [timerArmed, hngt]

/-- Witness for C6 at `startupTimeout` values 7 and 0, child pid 42. -/
theorem startup_timeout_behavior_witness :
    (0 : Int) < 7 ∧ (0 : Int) ≤ 0 ∧
    (timerArmed none = true ∧
     timerDelay none = 5000 ∧
     timerArmed (some 7) = true ∧
     timerDelay (some 7) = 7 ∧
     timerArmed (some 0) = false ∧
     startupTimeoutFire (some 42) =
       ⟨none, true, .rejectedWith "engineproxy timed out"⟩ ∧
     launcherOnStart ⟨"127.0.0.1", 4001, "http://127.0.0.1:4001"⟩ =
       ⟨true, .resolved ⟨"127.0.0.1", 4001, "http://127.0.0.1:4001"⟩⟩ ∧
     engineStartupTimeout none = 5000) :=
  ⟨by decide, by decide,
   startup_timeout_behavior 7 0 42 ⟨"127.0.0.1", 4001, "http://127.0.0.1:4001"⟩
     (by decide) (by decide)⟩

/-- C7 (counterexample): a non-empty unparsable side-channel payload makes
the `end` handler throw (the `JSON.parse` exception escapes the handler
uncaught); no side-channel error event is emitted, so the pending `start()`
is not rejected by it — contrary to the claim that it is reported as an
error event. -/
theorem unparsable_payload_throws :
    onSideChannelEnd "nonsense" none = SideChannelOutcome.thrown ∧
    (onSideChannelEnd "nonsense" none).isEmitError = false ∧
    ("nonsense" : String) ≠ "" := by
  refine ⟨rfl, rfl, by decide⟩

/-- C7 (amended): on side-channel stream end with zero accumulated bytes the
handler does nothing (ordinary process teardown); with a non-empty payload
that parses as `{ip, port}` it emits the `'start'` ("ready") event carrying
the derived listening address; with a non-empty payload that does not parse,
the `JSON.parse` exception is thrown out of the handler — no error event is
emitted and the pending `start()` is not rejected by it. The `'error'` event
is emitted only by the separate stream-error handler. -/
theorem side_channel_end_behavior (acc ip msg : String) (port : Int)
    (p : Option (String × Int)) (hacc : acc ≠ "") :
    onSideChannelEnd "" p = SideChannelOutcome.quiet ∧
    onSideChannelEnd acc (some (ip, port)) =
      SideChannelOutcome.emitStart (deriveListeningAddress ip port) ∧
    onSideChannelEnd acc none = SideChannelOutcome.thrown ∧
    (onSideChannelEnd acc none).isEmitError = false ∧
    onSideChannelStreamError msg = SideChannelOutcome.emitError msg := by
  refine ⟨rfl, ?_, ?_, ?_, rfl⟩ <;>
    simp [onSideChannelEnd, hacc, SideChannelOutcome.isEmitError]

/-- Witness for the amended C7 at payloads `""`, `"nonsense"`, and a parsed
address `127.0.0.1:4001`. -/
theorem side_channel_end_behavior_witness :
    ("nonsense" : String) ≠ "" ∧
    (onSideChannelEnd "" none = SideChannelOutcome.quiet ∧
     onSideChannelEnd "nonsense" (some ("127.0.0.1", 4001)) =
       SideChannelOutcome.emitStart (deriveListeningAddress "127.0.0.1" 4001) ∧
     onSideChannelEnd "nonsense" none = SideChannelOutcome.thrown ∧
     (onSideChannelEnd "nonsense" none).isEmitError = false ∧
     onSideChannelStreamError "read error" =
       SideChannelOutcome.emitError "read error") :=
  ⟨by decide,
   side_channel_end_behavior "nonsense" "127.0.0.1" "read error" 4001 none
     (by decide)⟩

/-- C9 (counterexample): a configuration object whose `frontends` and
`origins` keys are both present but empty contains no frontend and no origin,
yet the precise-mode check accepts it and passes it through unchanged — the
check only tests that the keys are not `undefined`. -/
theorem precise_mode_empty_arrays_pass :
    hasAtLeastOneFrontend ⟨some [], some []⟩ = false ∧
    hasAtLeastOneOrigin ⟨some [], some []⟩ = false ∧
    preciseConfigCheck (.obj ⟨some [], some []⟩) =
      Except.ok (.obj ⟨some [], some []⟩) :=
  ⟨rfl, rfl, rfl⟩

/-- C9 (amended): in precise mode, `start()` fails synchronously (before any
spawn) with the descriptive no-frontend error exactly when the configuration
object lacks the `frontends` key, and with the no-origin error when it has
`frontends` but lacks `origins`; configurations given as a file path are not
checked at all, and any object with both keys present — even holding empty
arrays — passes through to the companion unmodified. -/
theorem precise_mode_check_behavior (p : String)
    (cfgF cfgO cfgOk : EngineConfigObj)
    (hF : cfgF.frontends = none)
    (hO1 : cfgO.frontends ≠ none) (hO2 : cfgO.origins = none)
    (h1 : cfgOk.frontends ≠ none) (h2 : cfgOk.origins ≠ none) :
    preciseConfigCheck (.file p) = .ok (.file p) ∧
    preciseConfigCheck (.obj cfgF) = .error errNoFrontend ∧
    preciseConfigCheck (.obj cfgO) = .error errNoOrigin ∧
    preciseConfigCheck (.obj cfgOk) = .ok (.obj cfgOk) := by
  refine ⟨rfl, ?_, ?_, ?_⟩ <;>
    simp [preciseConfigCheck, hF, hO1, hO2, h1, h2]

/-- Witness for the amended C9: a file-path config, an object lacking
`frontends`, an object lacking `origins`, and an object with both keys
holding empty arrays. -/
theorem precise_mode_check_behavior_witness :
    ((⟨none, some []⟩ : EngineConfigObj).frontends = none) ∧
    ((⟨some [], none⟩ : EngineConfigObj).frontends ≠ none) ∧
    ((⟨some [], none⟩ : EngineConfigObj).origins = none) ∧
    (preciseConfigCheck (.file "engine.json") = .ok (.file "engine.json") ∧
     preciseConfigCheck (.obj ⟨none, some []⟩) = .error errNoFrontend ∧
     preciseConfigCheck (.obj ⟨some [], none⟩) = .error errNoOrigin ∧
     preciseConfigCheck (.obj ⟨some [], some []⟩) =
       .ok (.obj ⟨some [], some []⟩)) :=
  ⟨rfl, by decide, rfl,
   precise_mode_check_behavior "engine.json" ⟨none, some []⟩ ⟨some [], none⟩
     ⟨some [], some []⟩ rfl (by decide) rfl (by decide) (by decide)⟩

end ApolloEngine
